import Mathlib

/-!
Verification of the GLB-to-UE5 import pipeline against its specification.

The development shallowly embeds the four Python source files:

* `src/scripts/blender_process.py` — the headless Blender scene script
  (scene graph as a list of objects; `merge_mesh_groups`, `decimate_meshes`);
* `src/blender_bridge.py` — Blender executable discovery (`find_blender`)
  and the conversion subprocess argv (`process_glb_cmd`);
* `src/gui.py` — the conversion slice of `ImportWorker.run`
  (`conversionStage`);
* `src/ue5_bridge.py` — `import_fbx` (discovery loop, command connection,
  drop-tolerant command execution) and `_build_import_command` (the remote
  script, represented by the structured content it embeds).

Machine reals from the Python side (decimate ratios, timeouts) are embedded
as rationals where compared exactly, and wall-clock time is discretised at
the 0.5-second poll granularity the source uses.
-/

/-! ## Scene model for `src/scripts/blender_process.py` -/

/-- The object types the Blender script distinguishes (`obj.type`). -/
inductive ObjType
  | empty
  | mesh
  | other
deriving DecidableEq, Repr

/-- A scene object: identity, current name, type, parent link and triangle
count.  `bpy.data.objects` is embedded as a `List Obj`. -/
structure Obj where
  id : Nat
  name : String
  type : ObjType
  parent : Option Nat
  tris : Nat
deriving DecidableEq, Repr

/-- `[c for c in obj.children if c.type == "MESH"]` for the object with id
`pid`: the mesh objects whose parent link points at `pid`. -/
def meshChildrenOf (scene : List Obj) (pid : Nat) : List Obj :=
  scene.filter (fun c => decide (c.type = ObjType.mesh ∧ c.parent = some pid))

/-- The `empty_parents` list collected at the top of `merge_mesh_groups`:
every EMPTY object paired with its MESH children, kept only when that child
list is nonempty. -/
def emptyParents (scene : List Obj) : List (Obj × List Obj) :=
  (scene.filter (fun o => decide (o.type = ObjType.empty))).filterMap (fun p =>
    let mc := meshChildrenOf scene p.id
    if mc.isEmpty then none else some (p, mc))

/-- `bpy.ops.object.parent_clear(type="CLEAR_KEEP_TRANSFORM")` on the
objects with the given ids. -/
def clearParentKeepTransform (scene : List Obj) (ids : List Nat) : List Obj :=
  scene.map (fun o => if o.id ∈ ids then { o with parent := none } else o)

/-- Assigning `obj.name = newName` for the object with id `oid`. -/
def renameObj (scene : List Obj) (oid : Nat) (newName : String) : List Obj :=
  scene.map (fun o => if o.id = oid then { o with name := newName } else o)

/-- `bpy.ops.object.join()` with active object `activeId` and the other
selected objects `otherIds`, followed by renaming the active object: the
non-active selected objects disappear and the active object now carries the
combined geometry (`total` triangles) and the new name. -/
def joinObjects (scene : List Obj) (activeId : Nat) (otherIds : List Nat)
    (total : Nat) (newName : String) : List Obj :=
  (scene.filter (fun o => decide (o.id ∉ otherIds))).map
    (fun o => if o.id = activeId then { o with tris := total, name := newName } else o)

/-- The body of the `for parent, mesh_children in empty_parents` loop in
`merge_mesh_groups`: clear the children's parent links, rename the parent to
`<name>__to_delete` to free its name, then either rename the single child or
join all children into the first one under the parent's original name. -/
def processGroup (scene : List Obj) (p : Obj) (mc : List Obj) : List Obj :=
  let s1 := clearParentKeepTransform scene (mc.map Obj.id)
  let s2 := renameObj s1 p.id (p.name ++ "__to_delete")
  match mc with
  | [] => s2
  | [c] => renameObj s2 c.id p.name
  | c :: rest => joinObjects s2 c.id (rest.map Obj.id) ((mc.map Obj.tris).sum) p.name

/-- `merge_mesh_groups` from `src/scripts/blender_process.py`: collect the
EMPTY parents with mesh children, process each group, delete the processed
parents, delete the empties left without children, and report the printed
counts (groups found, meshes remaining) alongside the final scene. -/
def merge_mesh_groups (scene : List Obj) : List Obj × Nat × Nat :=
  let groups := emptyParents scene
  let s1 := groups.foldl (fun s pg => processGroup s pg.1 pg.2) scene
  let parentIds : List Nat := groups.map (fun pg => pg.1.id)
  let s2 := s1.filter (fun o => decide (o.id ∉ parentIds))
  let s3 := s2.filter (fun o =>
    !(decide (o.type = ObjType.empty) && (s2.filter (fun c => decide (c.parent = some o.id))).isEmpty))
  (s3, groups.length, (s3.filter (fun o => decide (o.type = ObjType.mesh))).length)

/-- `decimate_meshes` from `src/scripts/blender_process.py`.  The geometric
effect of one applied COLLAPSE decimate modifier is abstracted by
`collapse`; the function returns the scene together with the number of
decimate modifiers applied.  For a ratio of at least 1 the source returns
immediately ("skipping decimation"). -/
def decimate_meshes (collapse : Nat → Nat) (r : ℚ) (scene : List Obj) :
    List Obj × Nat :=
  if 1 ≤ r then (scene, 0)
  else
    ((scene.map (fun o => if o.type = ObjType.mesh then { o with tris := collapse o.tris } else o)),
     (scene.filter (fun o => decide (o.type = ObjType.mesh))).length)

/-! ## Tool locator, `src/blender_bridge.py` -/

/-- The glob pattern probed on Windows for standard Blender installs. -/
def windowsGlobPattern : String :=
  "C:\\Program Files\\Blender Foundation\\Blender *\\blender.exe"

/-- The Steam fallback location probed last on Windows. -/
def steamBlenderPath : String :=
  "C:\\Program Files (x86)\\Steam\\steamapps\\common\\Blender\\blender.exe"

/-- The environment and filesystem facts `find_blender` reads: the override
variable, `os.path.isfile`, the platform, the matches of
`windowsGlobPattern`, and `shutil.which("blender")`. -/
structure Env where
  blenderPathVar : Option String
  isFile : String → Bool
  isWin32 : Bool
  globMatches : List String
  whichBlender : Option String

/-- One step of a descending insertion sort on strings. -/
def insertDesc (x : String) : List String → List String
  | [] => [x]
  | y :: ys => if y ≤ x then x :: y :: ys else y :: insertDesc x ys

/-- `sorted(matches, reverse=True)`: the matches in descending string
order, so the newest versioned install directory comes first. -/
def sortedDesc : List String → List String
  | [] => []
  | x :: xs => insertDesc x (sortedDesc xs)

/-- Steps 3 and 4 of the search: `shutil.which("blender")`, then the Steam
path on Windows. -/
def find_blender_tail (e : Env) : Option String :=
  match e.whichBlender with
  | some w => some w
  | none =>
    if e.isWin32 ∧ e.isFile steamBlenderPath then some steamBlenderPath else none

/-- Step 2 of the search: on Windows, the first entry of the
reverse-sorted glob matches when any exist. -/
def find_blender_glob (e : Env) : Option String :=
  if e.isWin32 then
    match sortedDesc e.globMatches with
    | m :: _ => some m
    | [] => find_blender_tail e
  else find_blender_tail e

/-- `find_blender` from `src/blender_bridge.py`.  An unset or empty
`BLENDER_PATH` is falsy in the source, so it falls through; a set variable
is honoured only when it names an existing file. -/
def find_blender (e : Env) : Option String :=
  match e.blenderPathVar with
  | some p => if p ≠ "" ∧ e.isFile p then some p else find_blender_glob e
  | none => find_blender_glob e

/-- The maximum of a list of strings, used as the specification's "newest
version selected when multiple installations match". -/
def maxOfList : List String → Option String
  | [] => none
  | x :: xs =>
    some (match maxOfList xs with
          | none => x
          | some m => max x m)

/-- Whether the override variable points at an existing file (spec step a). -/
def envOverrideOk (e : Env) : Bool :=
  match e.blenderPathVar with
  | some p => decide (p ≠ "") && e.isFile p
  | none => false

/-- The locator exactly as the specification words it: explicit override
variable when it points to an existing file, else the newest matching
platform install, else the system executable search path, else the known
third-party (Steam) path, else not found. -/
def locate_spec (e : Env) : Option String :=
  if envOverrideOk e then e.blenderPathVar
  else if e.isWin32 ∧ e.globMatches ≠ [] then maxOfList e.globMatches
  else if e.whichBlender.isSome then e.whichBlender
  else if e.isWin32 ∧ e.isFile steamBlenderPath then some steamBlenderPath
  else none

/-- Path of the bundled Blender script, relative to `src/`. -/
def blenderScriptPath : String := "scripts/blender_process.py"

/-- The argv assembled by `process_glb` in `src/blender_bridge.py` for the
headless Blender subprocess.  The function's signature carries no
merge-children parameter, and no optional flag is ever appended. -/
def process_glb_cmd (blender glb : String) (r : ℚ) (out : String) : List String :=
  [blender, "--background", "--python", blenderScriptPath, "--",
   "--input", glb, "--output", out, "--decimate", toString r]

/-- The parameter names `process_glb` accepts (its `def` line). -/
def process_glb_params : List String :=
  ["glb_path", "decimate_ratio", "output_fbx_path", "timeout"]

/-- The keyword arguments `gui.py` passes to `process_glb` beyond the three
positional ones (`ImportWorker.run`, the `process_glb(...)` call). -/
def gui_process_glb_kwargs : List String := ["merge_children"]

/-! ## Conversion slice of `ImportWorker.run`, `src/gui.py` -/

/-- The facts the conversion stage of `ImportWorker.run` actually consults
before it fails: the locator result and whether the input GLB is a file.
The subprocess never runs (see `conversionStage`), so no subprocess facts
are reachable. -/
structure ConvWorld where
  blender : Option String
  glbIsFile : Bool

/-- Terminal result of the conversion stage: a `finished(False, msg)`
emission, or progression past the worker's FBX check carrying the measured
size (the vocabulary of the worker; the success constructor is what a
completed conversion would report). -/
inductive ConvOutcome
  | failed (msg : String)
  | success (fbxSizeBytes : Nat)
deriving DecidableEq, Repr

/-- The message of the `TypeError` raised at the worker's `process_glb`
call, as the generic handler reports it (abridged, without traceback). -/
def mergeChildrenTypeError : String :=
  "Error: process_glb() got an unexpected keyword argument 'merge_children'"

/-- The conversion stage of `ImportWorker.run` (`src/gui.py`): validate the
input, require Blender, then call
`process_glb(self.glb_path, self.decimate_ratio, fbx_path, merge_children=self.merge_children)`.
`process_glb` in `src/blender_bridge.py` accepts no `merge_children`
parameter, so this call raises `TypeError` before any subprocess is
spawned; the worker's generic `except Exception` handler turns it into the
job's failure.  The exit-code check, the "Blender did not produce FBX
output" check and the success path further down the worker are therefore
unreachable in the current source. -/
def conversionStage (w : ConvWorld) : ConvOutcome :=
  if ¬ w.glbIsFile then .failed "GLB file not found"
  else
    match w.blender with
    | none => .failed "Blender not found. Install Blender or set BLENDER_PATH."
    | some _ => .failed mergeChildrenTypeError

/-! ## UE5 bridge, `src/ue5_bridge.py` -/

/-- `fbx_path.replace("\\", "/")`: forward-slash normalisation. -/
def normSlashes (p : String) : String :=
  String.mk (p.toList.map (fun c => if c = '\\' then '/' else c))

/-- Split a character list on `/` separators. -/
def splitSlashes : List Char → List (List Char)
  | [] => [[]]
  | c :: rest =>
    match splitSlashes rest with
    | [] => [[]]
    | g :: gs => if c = '/' then [] :: g :: gs else (c :: g) :: gs

/-- `PureWindowsPath(p).name`: the last nonempty path component, with both
separator styles accepted. -/
def winName (p : String) : String :=
  String.mk (((splitSlashes (normSlashes p).toList).filter (fun s => decide (s ≠ []))).getLastD [])

/-- `PureWindowsPath(p).stem`: the name with its final extension removed,
where an extension dot must sit strictly inside the name. -/
def winStem (p : String) : String :=
  let name := winName p
  let cs := name.toList
  let n := cs.length
  match cs.reverse.findIdx? (fun c => decide (c = '.')) with
  | none => name
  | some k =>
    let i := n - 1 - k
    if 0 < i ∧ i < n - 1 then String.mk (cs.take i) else name

/-- The `unreal.FbxImportUI` options block both branches of the generated
script configure. -/
structure FbxImportUI where
  import_mesh : Bool
  import_textures : Bool
  import_materials : Bool
  import_as_skeletal : Bool
  combine_meshes : Bool
  auto_generate_collision : Bool
  generate_lightmap_uvs : Bool
  import_animations : Bool
deriving DecidableEq, Repr

/-- The `unreal.AssetImportTask` either branch of the generated script
builds. -/
structure AssetImportTask where
  filename : String
  destination_path : String
  destination_name : String
  replace_existing : Bool
  replace_existing_settings : Bool
  automated : Bool
  save : Bool
  options : FbxImportUI
deriving DecidableEq, Repr

/-- The structured content of the Python script `_build_import_command`
emits: the leftover-staging sweep it starts with, the asset name and final
path of the existence check, the import task of the reimport branch
(asset already exists) and of the fresh branch (it does not), and the
post-import steps. -/
structure ImportCommand where
  cleanupFolder : String
  tempFolderMarker : String
  assetName : String
  finalPath : String
  reimportTask : AssetImportTask
  freshTask : AssetImportTask
  setComplexCollision : Bool
  moveMaterials : Bool
  materialsFolder : String
deriving DecidableEq, Repr

/-- `_build_import_command` from `src/ue5_bridge.py`, as the structured
content of the script string it returns. -/
def _build_import_command (fbx_path content_folder : String)
    (import_materials complex_collision combine_meshes : Bool) : ImportCommand :=
  let asset_name := winStem fbx_path
  let options : FbxImportUI :=
    { import_mesh := true
      import_textures := import_materials
      import_materials := import_materials
      import_as_skeletal := false
      combine_meshes := combine_meshes
      auto_generate_collision := true
      generate_lightmap_uvs := true
      import_animations := false }
  let task : AssetImportTask :=
    { filename := fbx_path
      destination_path := content_folder
      destination_name := asset_name
      replace_existing := true
      replace_existing_settings := true
      automated := true
      save := true
      options := options }
  { cleanupFolder := content_folder
    tempFolderMarker := "_temp_import_"
    assetName := asset_name
    finalPath := content_folder ++ "/" ++ asset_name
    reimportTask := task
    freshTask := task
    setComplexCollision := complex_collision
    moveMaterials := import_materials
    materialsFolder := content_folder ++ "/Materials" }

/-- What the remote editor does with the single command exchange: it either
returns a structured `{success, output}` response, or the transport fails
after the command was transmitted (connection dropped while awaiting the
response), or the transport fails before the command could be sent. -/
inductive ChannelEvent
  | response (success : Bool) (output : List String)
  | lostAfterSend
  | failBeforeSend
deriving DecidableEq, Repr

/-- Result of one `run_command` call: the returned response dict, a raised
`RuntimeError`, or a raised non-`RuntimeError` transport exception. -/
inductive RunResult
  | ok (success : Bool) (output : List String)
  | runtimeError (msg : String)
  | channelError (msg : String)
deriving DecidableEq, Repr

/-- Modelled from the spec: `remote_execution.RemoteExecution.run_command`
(the vendored Epic transport library, not part of `src/`).  With
`raise_on_failure=True` it raises `RuntimeError` when the editor's response
reports failure; a connection dropped after the command was transmitted
surfaces as the library's `RuntimeError` about an invalid response (the
situation `import_fbx`'s drop-tolerance comment describes); a transport
error before the command is sent is a hard non-`RuntimeError` channel
exception (spec section 4.4). -/
def run_command (ev : ChannelEvent) (raise_on_failure : Bool) : RunResult :=
  match ev with
  | .response ok out =>
    if raise_on_failure ∧ ¬ ok then .runtimeError "Remote Python Command failed" else .ok ok out
  | .lostAfterSend => .runtimeError "Remote party failed to send a valid response"
  | .failBeforeSend => .channelError "transport error before send"

/-- The discovery loop of `import_fbx`: starting at poll tick `t` (one tick
is one 0.5 s sleep), return the first tick within the remaining `fuel`
sleeps at which a remote node is known, and `none` when the deadline passes
with none known. -/
def discover (known : Nat → Bool) : Nat → Nat → Option Nat
  | t, 0 => if known t then some t else none
  | t, fuel + 1 => if known t then some t else discover known (t + 1) fuel

/-- `time.sleep(0.5)`, in tenths of a second. -/
def pollIntervalTenths : Nat := 5

/-- The default `discovery_timeout` of 10.0 seconds, in tenths. -/
def defaultDiscoveryTimeoutTenths : Nat := 100

/-- The number of 0.5 s polls the default 10 s discovery window allows. -/
def defaultDiscoveryTicks : Nat := defaultDiscoveryTimeoutTenths / pollIntervalTenths

/-- The environment one `import_fbx` job runs against: at which poll ticks a
remote node is known, whether `open_command_connection` succeeds, and what
the command exchange does. -/
structure World where
  known : Nat → Bool
  openOk : Bool
  event : ChannelEvent

/-- A job's terminal behaviour: the `ConnectionError` raised on discovery
timeout, any other propagated exception, or the returned response dict. -/
inductive Outcome
  | discoveryTimeout (msg : String)
  | hardError (msg : String)
  | result (success : Bool) (output : List String)
deriving DecidableEq, Repr

/-- What one `import_fbx` run did: its outcome, the command it built (if it
got that far), and whether the command was transmitted to the editor. -/
structure JobRun where
  outcome : Outcome
  commandBuilt : Option ImportCommand
  commandSent : Bool
deriving DecidableEq, Repr

/-- The discovery-timeout message of `import_fbx` (abridged). -/
def noEditorMsg : String := "No UE5 Editor found"

/-- The warning returned when the connection is lost during the command
wait (`src/ue5_bridge.py`, the `except RuntimeError` branch). -/
def lostConnectionWarning : String :=
  "Warning: Lost connection to UE5 before receiving confirmation. The import likely succeeded — check the UE5 Content Browser."

/-- `import_fbx` from `src/ue5_bridge.py`: poll for a node until the
deadline, raise `ConnectionError` when none was found, open the command
connection, build the import command from the slash-normalised path, run it
with `raise_on_failure=True`, and convert any `RuntimeError` raised there
into a successful response carrying `lostConnectionWarning`.  Exceptions
raised before `run_command` (discovery timeout, a failed
`open_command_connection`) propagate. -/
def import_fbx (w : World) (fbx_path ue5_content_folder : String)
    (discoveryTicks : Nat) (import_materials complex_collision combine_meshes : Bool) : JobRun :=
  match discover w.known 0 discoveryTicks with
  | none => { outcome := .discoveryTimeout noEditorMsg, commandBuilt := none, commandSent := false }
  | some _ =>
    if w.openOk then
      let command := _build_import_command (normSlashes fbx_path) ue5_content_folder
        import_materials complex_collision combine_meshes
      match run_command w.event true with
      | .ok ok out =>
        { outcome := .result ok out, commandBuilt := some command, commandSent := true }
      | .runtimeError _ =>
        { outcome := .result true [lostConnectionWarning], commandBuilt := some command,
          commandSent := true }
      | .channelError m =>
        { outcome := .hardError m, commandBuilt := some command, commandSent := false }
    else
      { outcome := .hardError "open_command_connection failed", commandBuilt := none,
        commandSent := false }

/-! ## Claims -/

/-- C8: for every decimation ratio at least 1.0 the decimation step is a
no-op — no decimate modifier is applied to any mesh and every mesh's
triangle count (indeed the whole scene) is unchanged. -/
theorem decimate_noop_of_ratio_ge_one (collapse : Nat → Nat) (r : ℚ) (scene : List Obj)
    (h : 1 ≤ r) : decimate_meshes collapse r scene = (scene, 0) := by
  simp [decimate_meshes, h]

/-- Witness for C8 at ratio 1 on a one-mesh scene. -/
theorem decimate_noop_of_ratio_ge_one_witness :
    decimate_meshes (fun n => n / 2) 1 [⟨2, "m1", ObjType.mesh, none, 6⟩]
      = ([⟨2, "m1", ObjType.mesh, none, 6⟩], 0) :=
  decimate_noop_of_ratio_ge_one (fun n => n / 2) 1 _ (le_refl 1)

/-- C10: in both the fresh-import and the reimport branch the generated
command sets the editor's `import_textures` option to exactly the value of
the `import_materials` argument (and `import_materials` likewise), so
textures are never imported without materials or vice versa. -/
theorem import_textures_equals_import_materials (fbx folder : String) (im cc cm : Bool) :
    ((_build_import_command fbx folder im cc cm).freshTask.options.import_textures = im ∧
     (_build_import_command fbx folder im cc cm).freshTask.options.import_materials = im) ∧
    ((_build_import_command fbx folder im cc cm).reimportTask.options.import_textures = im ∧
     (_build_import_command fbx folder im cc cm).reimportTask.options.import_materials = im) :=
  ⟨⟨rfl, rfl⟩, rfl, rfl⟩

/-- Counterexample to C1 as stated: on a fresh import the generated command
does not stage under a temporary namespace and move afterwards — its
fresh-import task writes straight to the final virtual path (the target
folder with the asset's name), and is identical to the reimport task. -/
theorem fresh_import_has_no_staging_cex :
    (_build_import_command "C:/m.fbx" "/Game/Imports" true false true).freshTask.destination_path
        = "/Game/Imports" ∧
    (_build_import_command "C:/m.fbx" "/Game/Imports" true false true).freshTask.destination_name
        = "m" ∧
    (_build_import_command "C:/m.fbx" "/Game/Imports" true false true).freshTask
        = (_build_import_command "C:/m.fbx" "/Game/Imports" true false true).reimportTask :=
  ⟨rfl, rfl, rfl⟩

/-- C1 (amended): for every import job the generated command imports
directly to the final virtual path in both cases — the fresh-import and
reimport branches carry identical tasks whose destination is the target
folder and asset name with replace-existing semantics; the only
staging-related behaviour is the initial sweep of leftover
`_temp_import_`-prefixed folders from previous runs. -/
theorem import_command_writes_directly (fbx folder : String) (im cc cm : Bool) :
    (_build_import_command fbx folder im cc cm).freshTask
        = (_build_import_command fbx folder im cc cm).reimportTask ∧
    (_build_import_command fbx folder im cc cm).freshTask.destination_path = folder ∧
    (_build_import_command fbx folder im cc cm).freshTask.destination_name = winStem fbx ∧
    (_build_import_command fbx folder im cc cm).freshTask.replace_existing = true ∧
    (_build_import_command fbx folder im cc cm).tempFolderMarker = "_temp_import_" ∧
    (_build_import_command fbx folder im cc cm).cleanupFolder = folder :=
  ⟨rfl, rfl, rfl, rfl, rfl, rfl⟩

/-- C3 evaluated at its failing input: when discovery and the connection
succeed but the editor itself reports that the command failed, `import_fbx`
returns a successful outcome carrying the lost-connection warning instead
of failing — the blanket `except RuntimeError` also catches the
`raise_on_failure` error, contradicting the claim and the function's own
docstring. -/
theorem command_failed_reported_as_success :
    (import_fbx ⟨fun _ => true, true, ChannelEvent.response false ["ImportTask failed"]⟩
        "C:/m.fbx" "/Game/Imports" defaultDiscoveryTicks true false true).outcome
      = Outcome.result true [lostConnectionWarning] := rfl

/-- C5 evaluated against the code: the argv `process_glb` assembles never
contains `--merge-children` (for any job whose path and ratio arguments are
not themselves that literal), and `process_glb`'s parameter list does not
even accept a merge-children argument — although `gui.py` passes
`merge_children=` and the Blender-side script parses the flag. -/
theorem no_merge_children_in_argv (blender glb out : String) (r : ℚ)
    (h1 : blender ≠ "--merge-children") (h2 : glb ≠ "--merge-children")
    (h3 : out ≠ "--merge-children") (h4 : toString r ≠ "--merge-children") :
    "--merge-children" ∉ process_glb_cmd blender glb r out ∧
    "merge_children" ∉ process_glb_params := by
  constructor
  · intro hmem
    simp [process_glb_cmd, blenderScriptPath] at hmem
    rcases hmem with h | h | h | h
    · exact h1 h.symm
    · exact h2 h.symm
    · exact h3 h.symm
    · exact h4 h.symm
  · decide

/-- Witness for C5 at a concrete job. -/
theorem no_merge_children_in_argv_witness :
    "--merge-children" ∉ process_glb_cmd "blender" "model.glb" 2 "model.fbx" ∧
    "merge_children" ∉ process_glb_params :=
  no_merge_children_in_argv "blender" "model.glb" "model.fbx" 2
    (by decide) (by decide) (by decide) (by decide)

/-- C2: once discovery has found a node, a transport failure raised
strictly after the command was transmitted (the connection dropped during
the response wait) yields a Succeeded outcome carrying the explicit
warning string, with the command marked as sent; a transport error raised
before the command could be sent — whether at `open_command_connection` or
inside the exchange — propagates as a hard failure of the job with no
command sent. -/
theorem drop_tolerance_after_send (w : World) (fbx folder : String) (ticks : Nat)
    (im cc cm : Bool) (t : Nat) (hd : discover w.known 0 ticks = some t) :
    (w.openOk = true → w.event = ChannelEvent.lostAfterSend →
      (import_fbx w fbx folder ticks im cc cm).outcome
          = Outcome.result true [lostConnectionWarning] ∧
      (import_fbx w fbx folder ticks im cc cm).commandSent = true) ∧
    (w.openOk = true → w.event = ChannelEvent.failBeforeSend →
      (import_fbx w fbx folder ticks im cc cm).outcome
          = Outcome.hardError "transport error before send" ∧
      (import_fbx w fbx folder ticks im cc cm).commandSent = false) ∧
    (w.openOk = false →
      (import_fbx w fbx folder ticks im cc cm).outcome
          = Outcome.hardError "open_command_connection failed" ∧
      (import_fbx w fbx folder ticks im cc cm).commandSent = false) := by
  unfold import_fbx
  rw [hd]
  refine ⟨?_, ?_, ?_⟩
  · intro ho he
    simp [ho, he, run_command]
  · intro ho he
    simp [ho, he, run_command]
  · intro ho
    simp [ho]

/-- Witness for C2: a dropped connection after send on a concrete job. -/
theorem drop_tolerance_after_send_witness :
    (import_fbx ⟨fun _ => true, true, ChannelEvent.lostAfterSend⟩
        "C:/m.fbx" "/Game/Imports" 20 true false true).outcome
      = Outcome.result true [lostConnectionWarning] ∧
    (import_fbx ⟨fun _ => true, true, ChannelEvent.lostAfterSend⟩
        "C:/m.fbx" "/Game/Imports" 20 true false true).commandSent = true :=
  (drop_tolerance_after_send ⟨fun _ => true, true, ChannelEvent.lostAfterSend⟩
    "C:/m.fbx" "/Game/Imports" 20 true false true 0 rfl).1 rfl rfl

/-- The discovery loop returns `none` when no node is known at any tick of
the window. -/
theorem discover_eq_none (known : Nat → Bool) (t fuel : Nat)
    (h : ∀ i, i ≤ fuel → known (t + i) = false) : discover known t fuel = none := by
  induction fuel generalizing t with
  | zero =>
    have h0 : known t = false := by simpa using h 0 (Nat.le_refl 0)
    simp [discover, h0]
  | succ n ih =>
    have h0 : known t = false := by simpa using h 0 (Nat.zero_le _)
    have hrest : ∀ i, i ≤ n → known (t + 1 + i) = false := by
      intro i hi
      have := h (i + 1) (Nat.succ_le_succ hi)
      simpa [Nat.add_comm, Nat.add_assoc, Nat.add_left_comm] using this
    simp [discover, h0]
    exact ih (t + 1) hrest

/-- C9: when no node becomes known at any 0.5-second poll of the discovery
window, `import_fbx` fails with the discovery-timeout error and no command
is ever built or sent (for the default 10-second window the witness below
uses `defaultDiscoveryTicks` polls). -/
theorem discovery_timeout_no_command (w : World) (fbx folder : String) (ticks : Nat)
    (im cc cm : Bool) (h : ∀ i, i ≤ ticks → w.known i = false) :
    import_fbx w fbx folder ticks im cc cm
      = { outcome := Outcome.discoveryTimeout noEditorMsg, commandBuilt := none,
          commandSent := false } := by
  unfold import_fbx
  rw [discover_eq_none w.known 0 ticks (by intro i hi; simpa using h i hi)]

/-- Witness for C9: a world in which no editor ever announces itself, over
the default 10-second window. -/
theorem discovery_timeout_no_command_witness :
    import_fbx ⟨fun _ => false, true, ChannelEvent.lostAfterSend⟩
        "C:/m.fbx" "/Game/Imports" defaultDiscoveryTicks true false true
      = { outcome := Outcome.discoveryTimeout noEditorMsg, commandBuilt := none,
          commandSent := false } :=
  discovery_timeout_no_command ⟨fun _ => false, true, ChannelEvent.lostAfterSend⟩
    "C:/m.fbx" "/Game/Imports" defaultDiscoveryTicks true false true (fun _ _ => rfl)

/-- C4 evaluated against the code at its failing input: the conversion
stage never returns success for any world — every job that passes input
validation fails at the `process_glb` call itself with the
`merge_children` `TypeError` — so the claimed success guarantee (output
exists and is non-empty) and the distinguishing
"Blender did not produce FBX output" path are dead code in the current
source. -/
theorem conversion_type_error_preempts_checks (w : ConvWorld) :
    (∀ sz, conversionStage w ≠ ConvOutcome.success sz) ∧
    (w.glbIsFile = true → w.blender ≠ none →
      conversionStage w = ConvOutcome.failed mergeChildrenTypeError) := by
  constructor
  · intro sz h
    unfold conversionStage at h
    split at h
    · exact absurd h (by simp)
    · split at h
      · exact absurd h (by simp)
      · exact absurd h (by simp)
  · intro hg hb
    unfold conversionStage
    rw [if_neg (by simp [hg])]
    cases hb' : w.blender with
    | none => exact absurd hb' hb
    | some b => rfl

/-- Witness for C4: a job with a present GLB and a found Blender fails
with the `merge_children` `TypeError` message. -/
theorem conversion_type_error_preempts_checks_witness :
    conversionStage ⟨some "blender", true⟩
      = ConvOutcome.failed mergeChildrenTypeError :=
  (conversion_type_error_preempts_checks ⟨some "blender", true⟩).2 rfl (by simp)

/-- Head of a descending insertion: the larger of the new element and the
old head. -/
theorem insertDesc_head (x : String) (l : List String) :
    (insertDesc x l).head?
      = some (match l.head? with | none => x | some y => if y ≤ x then x else y) := by
  cases l with
  | nil => rfl
  | cons y ys => by_cases h : y ≤ x <;> simp [insertDesc, h]

/-- `maxOfList` is `none` exactly on the empty list. -/
theorem maxOfList_eq_none (l : List String) : maxOfList l = none ↔ l = [] := by
  cases l <;> simp [maxOfList]

/-- The first element of the reverse-sorted list is the maximum. -/
theorem sortedDesc_head (l : List String) : (sortedDesc l).head? = maxOfList l := by
  induction l with
  | nil => rfl
  | cons x xs ih =>
    rw [sortedDesc, insertDesc_head, ih]
    cases hm : maxOfList xs with
    | none => simp [maxOfList, hm]
    | some m =>
      simp only [maxOfList, hm]
      rcases le_or_lt m x with h | h
      · simp [h, max_eq_left h]
      · simp [not_le.mpr h, max_eq_right h.le]

/-- The env-override test of the source agrees with `envOverrideOk`. -/
theorem find_blender_env_step (e : Env) :
    find_blender e
      = if envOverrideOk e then e.blenderPathVar else find_blender_glob e := by
  unfold find_blender envOverrideOk
  cases he : e.blenderPathVar with
  | none => simp
  | some p =>
    dsimp only
    by_cases hp : p ≠ "" ∧ e.isFile p = true
    · rw [if_pos hp, if_pos (by simp [hp.1, hp.2])]
    · rw [if_neg hp, if_neg]
      simp only [Bool.and_eq_true, decide_eq_true_eq]
      intro hc
      exact hp ⟨hc.1, hc.2⟩

/-- The glob step of the source picks the maximum match. -/
theorem find_blender_glob_step (e : Env) :
    find_blender_glob e
      = if e.isWin32 ∧ e.globMatches ≠ [] then maxOfList e.globMatches
        else find_blender_tail e := by
  unfold find_blender_glob
  by_cases hw : e.isWin32 = true
  · cases hs : sortedDesc e.globMatches with
    | nil =>
      have hgm : e.globMatches = [] := by
        have h1 := sortedDesc_head e.globMatches
        rw [hs] at h1
        exact (maxOfList_eq_none _).mp h1.symm
      simp [hw, hgm]
    | cons m rest =>
      have h1 : maxOfList e.globMatches = some m := by
        rw [← sortedDesc_head, hs]
        rfl
      have hgm : e.globMatches ≠ [] := by
        intro hc
        rw [hc] at h1
        exact Option.noConfusion h1
      simp [hw, hgm, h1]
  · have hw' : e.isWin32 = false := by
      cases hb : e.isWin32
      · rfl
      · exact absurd hb hw
    simp [hw']

/-- The which/Steam tail of the source in cascade form. -/
theorem find_blender_tail_step (e : Env) :
    find_blender_tail e
      = if e.whichBlender.isSome then e.whichBlender
        else if e.isWin32 ∧ e.isFile steamBlenderPath then some steamBlenderPath
        else none := by
  unfold find_blender_tail
  cases hwh : e.whichBlender <;> simp

/-- C6: for every environment and filesystem state the tool locator follows
exactly the specified first-match order — override variable pointing at an
existing file, newest (maximal) default-install glob match on the platform,
system executable search path, then the Steam path — and it returns
not-found precisely when all four stages fail.  The embedding is a pure
function of the environment, so the no-side-effects half holds by
construction. -/
theorem find_blender_follows_spec_order (e : Env) :
    find_blender e = locate_spec e ∧
    (find_blender e = none ↔
      envOverrideOk e = false ∧ (e.isWin32 = false ∨ e.globMatches = []) ∧
      e.whichBlender = none ∧ (e.isWin32 = false ∨ e.isFile steamBlenderPath = false)) := by
  have heq : find_blender e = locate_spec e := by
    rw [find_blender_env_step, find_blender_glob_step, find_blender_tail_step]
    unfold locate_spec
    rfl
  refine ⟨heq, ?_⟩
  rw [heq]
  unfold locate_spec
  split
  · next hov =>
    cases he : e.blenderPathVar with
    | none =>
      unfold envOverrideOk at hov
      rw [he] at hov
      exact Bool.noConfusion hov
    | some p =>
      simp only [he, hov]
      constructor
      · intro hc
        exact Option.noConfusion hc
      · rintro ⟨hc, -⟩
        exact Bool.noConfusion hc
  · next hov =>
    split
    · next hglob =>
      have hne : e.globMatches ≠ [] := hglob.2
      cases hm : maxOfList e.globMatches with
      | none => exact absurd ((maxOfList_eq_none _).mp hm) hne
      | some m =>
        constructor
        · intro hc
          exact Option.noConfusion hc
        · rintro ⟨-, hc, -⟩
          rcases hc with hc | hc
          · rw [hc] at hglob
            exact Bool.noConfusion hglob.1
          · exact absurd hc hne
    · next hglob =>
      split
      · next hwh =>
        rcases Option.isSome_iff_exists.mp hwh with ⟨w, hw⟩
        simp only [hw]
        constructor
        · intro hc
          exact Option.noConfusion hc
        · rintro ⟨-, -, hc, -⟩
          exact hc
      · next hwh =>
        split
        · next hsteam =>
          constructor
          · intro hc
            exact Option.noConfusion hc
          · rintro ⟨-, -, -, hc⟩
            rcases hc with hc | hc
            · rw [hc] at hsteam
              exact Bool.noConfusion hsteam.1
            · rw [hc] at hsteam
              exact Bool.noConfusion hsteam.2
        · next hsteam =>
          refine ⟨fun _ => ⟨?_, ?_, ?_, ?_⟩, fun _ => rfl⟩
          · cases hb : envOverrideOk e
            · rfl
            · exact absurd hb hov
          · by_cases hwin : e.isWin32 = true
            · right
              by_cases hgm : e.globMatches = []
              · exact hgm
              · exact absurd ⟨hwin, hgm⟩ hglob
            · left
              cases hb : e.isWin32
              · rfl
              · exact absurd hb hwin
          · cases hwb : e.whichBlender with
            | none => rfl
            | some w => rw [hwb] at hwh; exact absurd rfl hwh
          · by_cases hwin : e.isWin32 = true
            · right
              cases hb : e.isFile steamBlenderPath
              · rfl
              · exact absurd ⟨hwin, hb⟩ hsteam
            · left
              cases hb : e.isWin32
              · rfl
              · exact absurd hb hwin

/-- Applying an id-guarded update maps over a list all of whose ids are in
the guard set. -/
theorem map_ite_mem_all (l : List Obj) (ids : List Nat) (f : Obj → Obj)
    (h : ∀ o ∈ l, o.id ∈ ids) :
    l.map (fun o => if o.id ∈ ids then f o else o) = l.map f :=
  List.map_congr_left (fun o ho => if_pos (h o ho))

/-- An id-guarded update is the identity on a list none of whose ids are in
the guard set. -/
theorem map_ite_mem_none (l : List Obj) (ids : List Nat) (f : Obj → Obj)
    (h : ∀ o ∈ l, o.id ∉ ids) :
    l.map (fun o => if o.id ∈ ids then f o else o) = l := by
  rw [List.map_congr_left (fun o ho => if_neg (h o ho))]
  exact List.map_id' l

/-- A single-id-guarded update is the identity when no element carries the
id. -/
theorem map_ite_id_none (l : List Obj) (oid : Nat) (f : Obj → Obj)
    (h : ∀ o ∈ l, o.id ≠ oid) :
    l.map (fun o => if o.id = oid then f o else o) = l := by
  rw [List.map_congr_left (fun o ho => if_neg (h o ho))]
  exact List.map_id' l

/-- Keeping the objects outside an id set keeps a list disjoint from it. -/
theorem filter_not_mem_all (l : List Obj) (ids : List Nat)
    (h : ∀ o ∈ l, o.id ∉ ids) :
    l.filter (fun o => decide (o.id ∉ ids)) = l :=
  List.filter_eq_self.mpr (fun o ho => decide_eq_true (h o ho))

/-- Keeping the objects outside an id set drops a list contained in it. -/
theorem filter_not_mem_nil (l : List Obj) (ids : List Nat)
    (h : ∀ o ∈ l, o.id ∈ ids) :
    l.filter (fun o => decide (o.id ∉ ids)) = [] :=
  List.filter_eq_nil_iff.mpr (fun o ho => by simp [h o ho])

/-- Mapping over a list with two explicit leading elements. -/
theorem map_cons_cons (f : Obj → Obj) (a b : Obj) (l : List Obj) :
    (a :: b :: l).map f = f a :: f b :: l.map f := rfl

/-- Renaming the third of three objects with distinct ids. -/
theorem renameObj_compute (a b c : Obj) (nm : String)
    (hac : a.id ≠ c.id) (hbc : b.id ≠ c.id) :
    renameObj [a, b, c] c.id nm = [a, b, { c with name := nm }] := by
  unfold renameObj
  simp only [List.map_cons, List.map_nil]
  rw [if_neg hac, if_neg hbc]
  simp

/-- Joining a tail of objects into an active object: the tail disappears
and the active object takes the combined triangles and the new name. -/
theorem joinObjects_compute (a b c : Obj) (M : List Obj) (ids : List Nat)
    (total : Nat) (nm : String)
    (ha : a.id ∉ ids) (hb : b.id ∉ ids) (hc : c.id ∉ ids)
    (hM : ∀ o ∈ M, o.id ∈ ids)
    (hac : a.id ≠ c.id) (hbc : b.id ≠ c.id) :
    joinObjects (a :: b :: c :: M) c.id ids total nm
      = [a, b, { c with tris := total, name := nm }] := by
  unfold joinObjects
  rw [List.filter_cons, List.filter_cons, List.filter_cons, filter_not_mem_nil M ids hM]
  rw [if_pos (decide_eq_true ha), if_pos (decide_eq_true hb), if_pos (decide_eq_true hc)]
  simp only [List.map_cons, List.map_nil]
  rw [if_neg hac, if_neg hbc]
  simp

/-- C7: for every scene in which N mesh objects (N at least 1) are the
direct children of one empty group node — itself hanging under a residual
root group node, as GLB imports produce — `merge_mesh_groups` leaves
exactly one object: a mesh carrying the group's original name.  The group
node no longer exists, the root group node (now childless) is also
removed, and the reported counts are one group processed and one mesh
remaining. -/
theorem merge_group_yields_single_named_mesh
    (rid pid rt pt : Nat) (rname g : String) (children : List Obj)
    (hne : children ≠ [])
    (hmesh : ∀ c ∈ children, c.type = ObjType.mesh)
    (hpar : ∀ c ∈ children, c.parent = some pid)
    (hcp : ∀ c ∈ children, c.id ≠ pid)
    (hcr : ∀ c ∈ children, c.id ≠ rid)
    (hnd : (children.map Obj.id).Nodup)
    (hrp : rid ≠ pid) :
    ∃ o, merge_mesh_groups
        (⟨rid, rname, ObjType.empty, none, rt⟩ :: ⟨pid, g, ObjType.empty, some rid, pt⟩ :: children)
      = ([o], 1, 1) ∧ o.type = ObjType.mesh ∧ o.name = g := by
  obtain ⟨c0, cs, rfl⟩ : ∃ c0 cs, children = c0 :: cs := by
    cases children with
    | nil => exact absurd rfl hne
    | cons c0 cs => exact ⟨c0, cs, rfl⟩
  have hc0 : c0 ∈ c0 :: cs := List.mem_cons_self c0 cs
  have hpr : pid ≠ rid := fun h => hrp h.symm
  -- the scene's EMPTY objects
  have hcs0 : (c0 :: cs).filter (fun o => decide (o.type = ObjType.empty)) = [] :=
    List.filter_eq_nil_iff.mpr (fun c hc => by simp [hmesh c hc])
  have hfE : (⟨rid, rname, ObjType.empty, none, rt⟩ :: ⟨pid, g, ObjType.empty, some rid, pt⟩ :: c0 :: cs).filter (fun o => decide (o.type = ObjType.empty))
      = [⟨rid, rname, ObjType.empty, none, rt⟩, ⟨pid, g, ObjType.empty, some rid, pt⟩] := by
    rw [List.filter_cons, List.filter_cons, hcs0]
    simp
  -- the root has no mesh children, the group parent has exactly `children`
  have hmcR : meshChildrenOf (⟨rid, rname, ObjType.empty, none, rt⟩ :: ⟨pid, g, ObjType.empty, some rid, pt⟩ :: c0 :: cs) rid = [] := by
    unfold meshChildrenOf
    apply List.filter_eq_nil_iff.mpr
    intro c hc
    simp only [List.mem_cons] at hc
    rcases hc with rfl | rfl | hc
    · simp
    · simp
    · have hc2 : c ∈ c0 :: cs := List.mem_cons.mpr hc
      simp [hpar c hc2, hpr]
  have hmcP : meshChildrenOf (⟨rid, rname, ObjType.empty, none, rt⟩ :: ⟨pid, g, ObjType.empty, some rid, pt⟩ :: c0 :: cs) pid = c0 :: cs := by
    have hself : (c0 :: cs).filter (fun c => decide (c.type = ObjType.mesh ∧ c.parent = some pid)) = c0 :: cs :=
      List.filter_eq_self.mpr (fun c hc => by simp [hmesh c hc, hpar c hc])
    unfold meshChildrenOf
    rw [List.filter_cons, List.filter_cons, hself]
    simp
  have hEP : emptyParents (⟨rid, rname, ObjType.empty, none, rt⟩ :: ⟨pid, g, ObjType.empty, some rid, pt⟩ :: c0 :: cs)
      = [(⟨pid, g, ObjType.empty, some rid, pt⟩, c0 :: cs)] := by
    unfold emptyParents
    rw [hfE]
    simp only [List.filterMap_cons, List.filterMap_nil]
    rw [hmcR, hmcP]
    simp
  have hcidr : rid ∉ (c0 :: cs).map Obj.id := by
    intro hmem
    rcases List.mem_map.mp hmem with ⟨c, hc, hci⟩
    exact hcr c hc hci
  have hcidp : pid ∉ (c0 :: cs).map Obj.id := by
    intro hmem
    rcases List.mem_map.mp hmem with ⟨c, hc, hci⟩
    exact hcp c hc hci
  have hclear : clearParentKeepTransform
      (⟨rid, rname, ObjType.empty, none, rt⟩ :: ⟨pid, g, ObjType.empty, some rid, pt⟩ :: c0 :: cs)
      ((c0 :: cs).map Obj.id)
      = ⟨rid, rname, ObjType.empty, none, rt⟩ :: ⟨pid, g, ObjType.empty, some rid, pt⟩ ::
        (c0 :: cs).map (fun o => { o with parent := none }) := by
    unfold clearParentKeepTransform
    rw [map_cons_cons, map_ite_mem_all _ _ _ (fun o ho => List.mem_map_of_mem _ ho)]
    dsimp only
    rw [if_neg hcidr, if_neg hcidp]
  have hren : renameObj
      (⟨rid, rname, ObjType.empty, none, rt⟩ :: ⟨pid, g, ObjType.empty, some rid, pt⟩ ::
        (c0 :: cs).map (fun o => { o with parent := none })) pid (g ++ "__to_delete")
      = ⟨rid, rname, ObjType.empty, none, rt⟩ :: ⟨pid, g ++ "__to_delete", ObjType.empty, some rid, pt⟩ ::
        (c0 :: cs).map (fun o => { o with parent := none }) := by
    unfold renameObj
    rw [map_cons_cons,
      map_ite_id_none _ _ _ (by
        intro o ho
        rcases List.mem_map.mp ho with ⟨c, hc, rfl⟩
        exact hcp c hc)]
    dsimp only
    rw [if_neg hrp, if_pos rfl]
  cases cs with
  | nil =>
    have hPG : processGroup
        (⟨rid, rname, ObjType.empty, none, rt⟩ :: ⟨pid, g, ObjType.empty, some rid, pt⟩ :: [c0])
        ⟨pid, g, ObjType.empty, some rid, pt⟩ [c0]
        = ⟨rid, rname, ObjType.empty, none, rt⟩ ::
          ⟨pid, g ++ "__to_delete", ObjType.empty, some rid, pt⟩ ::
          [⟨c0.id, g, c0.type, none, c0.tris⟩] := by
      unfold processGroup
      dsimp only
      rw [hclear, hren]
      exact renameObj_compute ⟨rid, rname, ObjType.empty, none, rt⟩
        ⟨pid, g ++ "__to_delete", ObjType.empty, some rid, pt⟩
        ⟨c0.id, c0.name, c0.type, none, c0.tris⟩ g
        (by intro h; exact hcr c0 hc0 h.symm) (by intro h; exact hcp c0 hc0 h.symm)
    unfold merge_mesh_groups
    rw [hEP]
    dsimp only [List.foldl]
    rw [hPG]
    refine ⟨⟨c0.id, g, ObjType.mesh, none, c0.tris⟩, ?_, rfl, rfl⟩
    simp only [hmesh c0 hc0]
    simp [List.filter_cons, hrp, hcp c0 hc0]
  | cons c1 cs' =>
    have hndh : c0.id ∉ (c1 :: cs').map Obj.id := (List.nodup_cons.mp hnd).1
    have hridM : rid ∉ (c1 :: cs').map Obj.id := by
      intro hmem
      rcases List.mem_map.mp hmem with ⟨c, hc, hci⟩
      exact hcr c (List.mem_cons_of_mem _ hc) hci
    have hpidM : pid ∉ (c1 :: cs').map Obj.id := by
      intro hmem
      rcases List.mem_map.mp hmem with ⟨c, hc, hci⟩
      exact hcp c (List.mem_cons_of_mem _ hc) hci
    have hPG : processGroup
        (⟨rid, rname, ObjType.empty, none, rt⟩ :: ⟨pid, g, ObjType.empty, some rid, pt⟩ :: c0 :: c1 :: cs')
        ⟨pid, g, ObjType.empty, some rid, pt⟩ (c0 :: c1 :: cs')
        = ⟨rid, rname, ObjType.empty, none, rt⟩ ::
          ⟨pid, g ++ "__to_delete", ObjType.empty, some rid, pt⟩ ::
          [⟨c0.id, g, c0.type, none, ((c0 :: c1 :: cs').map Obj.tris).sum⟩] := by
      unfold processGroup
      dsimp only
      rw [hclear, hren]
      exact joinObjects_compute ⟨rid, rname, ObjType.empty, none, rt⟩
        ⟨pid, g ++ "__to_delete", ObjType.empty, some rid, pt⟩
        ⟨c0.id, c0.name, c0.type, none, c0.tris⟩
        ((c1 :: cs').map (fun o => { o with parent := none }))
        ((c1 :: cs').map Obj.id) (((c0 :: c1 :: cs').map Obj.tris).sum) g hridM hpidM hndh
        (by
          intro o ho
          rcases List.mem_map.mp ho with ⟨c, hc, rfl⟩
          show c.id ∈ (c1 :: cs').map Obj.id
          exact List.mem_map_of_mem _ hc)
        (by intro h; exact hcr c0 hc0 h.symm) (by intro h; exact hcp c0 hc0 h.symm)
    unfold merge_mesh_groups
    rw [hEP]
    dsimp only [List.foldl]
    rw [hPG]
    refine ⟨⟨c0.id, g, ObjType.mesh, none, ((c0 :: c1 :: cs').map Obj.tris).sum⟩, ?_, rfl, rfl⟩
    simp only [hmesh c0 hc0]
    simp [List.filter_cons, hrp, hcp c0 hc0]

/-- Witness for C7: a root node over one group with two mesh children. -/
theorem merge_group_yields_single_named_mesh_witness :
    ∃ o, merge_mesh_groups
        (⟨0, "Root", ObjType.empty, none, 0⟩ :: ⟨1, "Group", ObjType.empty, some 0, 0⟩ ::
          [⟨2, "m1", ObjType.mesh, some 1, 6⟩, ⟨3, "m2", ObjType.mesh, some 1, 8⟩])
      = ([o], 1, 1) ∧ o.type = ObjType.mesh ∧ o.name = "Group" :=
  merge_group_yields_single_named_mesh 0 1 0 0 "Root" "Group"
    [⟨2, "m1", ObjType.mesh, some 1, 6⟩, ⟨3, "m2", ObjType.mesh, some 1, 8⟩]
    (by decide) (by decide) (by decide) (by decide) (by decide) (by decide) (by decide)
